import Mathlib

set_option maxRecDepth 8192

/-! Verification development for the Centaur Parting dashboard JavaScript
(src/web/static/js/dashboard.js and the two earlier dashboard revisions in
src/unnamed/part_000 and src/unnamed/part_001).  The definitions below are
shallow embeddings of the dashboard functions: JSON numbers are modelled as
rationals, JSON strings as Lean strings, possibly-absent JSON fields as
Option, and JavaScript truthiness (null, undefined, 0, "" and false are
falsy) is made explicit by the jsOr helpers. -/

namespace CentaurParting

/-- JavaScript `x || d` for an optional string: null/undefined and the empty
string are falsy and yield the default. -/
def jsOrStr (x : Option String) (d : String) : String :=
  match x with
  | none => d
  | some s => if s = "" then d else s

/-- JavaScript `x || d` for an optional number: null/undefined and 0 are
falsy and yield the default. -/
def jsOrRat (x : Option ℚ) (d : ℚ) : ℚ :=
  match x with
  | none => d
  | some q => if q = 0 then d else q

/-- JavaScript `x || d` for an optional integer, as used for `data.pages`. -/
def jsOrInt (x : Option Int) (d : Int) : Int :=
  match x with
  | none => d
  | some n => if n = 0 then d else n

/-- JavaScript `x || d` for an optional boolean (`data.watcher_running || false`). -/
def jsOrBool (x : Option Bool) (d : Bool) : Bool :=
  match x with
  | none => d
  | some b => if b = false then d else b

/-- JavaScript truthiness of an optional number (used as a bare condition,
for example `if (skyMag && ...)` or `skyMag ? ... : 'N/A'`). -/
def truthyRat (x : Option ℚ) : Bool :=
  match x with
  | none => false
  | some q => decide (q ≠ 0)

/-- The `file_info` object of a report (§3 FileInfo), every field possibly
absent as far as the dashboard is concerned. -/
structure FileInfo where
  filename : Option String
  object : Option String
  filter : Option String
  telescope : Option String
  camera : Option String
  rig : Option String
deriving DecidableEq

/-- The `saturation_analysis` block; the dashboard only reads `severity` and
`likely_hot_pixels`. -/
structure SaturationAnalysis where
  severity : Option String
  likely_hot_pixels : Option Bool
deriving DecidableEq

/-- The `sky_brightness` block; the dashboard reads `mag_per_arcsec2`. -/
structure SkyBrightness where
  mag_per_arcsec2 : Option ℚ
deriving DecidableEq

/-- The `snr_metrics` block. -/
structure SnrMetrics where
  snr_background : Option ℚ
  snr_faint_object : Option ℚ
  snr_moderate_object : Option ℚ
deriving DecidableEq

/-- The `analysis` object of a report (§3 AnalysisResult), as read by the
dashboard. -/
structure AnalysisData where
  current_exposure : Option ℚ
  recommended_exposure : Option ℚ
  exposure_factor : Option ℚ
  saturation_analysis : Option SaturationAnalysis
  sky_brightness : Option SkyBrightness
  snr_metrics : Option SnrMetrics
deriving DecidableEq

/-- One record of the `analyses` array returned by GET /api/analyses. -/
structure Report where
  file_info : Option FileInfo
  analysis : Option AnalysisData
deriving DecidableEq

/-- The three exposure badge classes of the analyses table.  In
src/unnamed/part_000 lines 140-142 they are the CSS classes
badge-exposure-good / badge-exposure-high / badge-exposure-low, in
dashboard.js createCompactRow lines 491-493 they are bg-success /
bg-warning / bg-danger; the selection logic is identical. -/
inductive ExposureBadge where
  | good
  | high
  | low
deriving DecidableEq

/-- Embedding of the exposure badge selection (part_000 lines 139-142,
dashboard.js lines 490-493):
const factor = analysisData.exposure_factor || 1;
let exposureBadge = good; if (factor > 1.5) high; if (factor < 0.67) low.
The two reassignments are sequential, so the later `factor < 0.67` test wins
when both fire (they never both fire since 0.67 < 1.5). -/
def exposureBadgeOf (factor : Option ℚ) : ExposureBadge :=
  let f := jsOrRat factor 1
  let b := ExposureBadge.good
  let b := if 3/2 < f then ExposureBadge.high else b
  let b := if f < 67/100 then ExposureBadge.low else b
  b

/-- The status string derived from the saturation severity, shared by
filterData (dashboard.js lines 363-370), createCompactRow (lines 508-517)
and createDetailedRow (lines 602-611):
let status = 'Good'; if (sat.severity === 'CRITICAL') status = 'Critical';
else if (sat.severity === 'MODERATE') status = 'Moderate'. -/
def statusOfSeverity (sev : Option String) : String :=
  if sev = some "CRITICAL" then "Critical"
  else if sev = some "MODERATE" then "Moderate"
  else "Good"

/-- The two sky-brightness badge classes (sky-badge-dark / sky-badge-bright
in part_000, bg-primary / bg-secondary in dashboard.js). -/
inductive SkyBadge where
  | dark
  | bright
deriving DecidableEq

/-- Embedding of the sky badge selection (part_000 lines 145-147,
dashboard.js lines 496-498): let skyBadge = dark;
if (skyMag && skyMag < 19) skyBadge = bright. -/
def skyBadgeOf (mag : Option ℚ) : SkyBadge :=
  match mag with
  | none => SkyBadge.dark
  | some q => if q ≠ 0 ∧ q < 19 then SkyBadge.bright else SkyBadge.dark

/-- A numeric table cell that is either rendered as a number or rendered as
the N/A placeholder (or, for the recommended-exposure line, omitted as the
empty string). -/
inductive RenderedNum where
  | absent
  | shown (q : ℚ)
deriving DecidableEq

/-- Embedding of the cells that guard on truthiness before rendering, for
example part_000 line 172 (sky magnitude: skyMag ? span : 'N/A'), line 179
(snr.snr_background ? toFixed(1) : 'N/A'), line 169 (recommended_exposure ?
text : '') and dashboard.js line 489 (exposure_factor ? toFixed(2) : 'N/A'
in the detail modal). -/
def renderOptionalMetric (v : Option ℚ) : RenderedNum :=
  if truthyRat v then RenderedNum.shown (v.getD 0) else RenderedNum.absent

/-- Embedding of the current-exposure cell (part_000 line 166, dashboard.js
line 539): the interpolation is the unconditional
$\x7banalysisData.current_exposure || 0\x7ds, so a number is always shown. -/
def renderCurrentExposure (v : Option ℚ) : RenderedNum :=
  RenderedNum.shown (jsOrRat v 0)

/-- The watcher status payload of GET /api/watcher/status, as read by
updateWatcherControls. -/
structure WatcherStatus where
  watcher_running : Option Bool
deriving DecidableEq

/-- The disabled flags of the two watcher control buttons after
updateWatcherControls ran. -/
structure WatcherControls where
  startDisabled : Bool
  stopDisabled : Bool
deriving DecidableEq

/-- Embedding of updateWatcherControls (part_000 lines 325-376, dashboard.js
lines 809-862): const isRunning = data.watcher_running || false; if
(isRunning) startBtn.disabled = true, stopBtn.disabled = false; else
startBtn.disabled = false, stopBtn.disabled = true. -/
def updateWatcherControls (data : WatcherStatus) : WatcherControls :=
  let isRunning := jsOrBool data.watcher_running false
  if isRunning then
    { startDisabled := true, stopDisabled := false }
  else
    { startDisabled := false, stopDisabled := true }

/-- Modelled from the spec: the SHO recommendation block computed by the
Python analyzer (src/monitor/enhanced/fits_analyzer.py), which is not part
of this repository slice; only its documented behaviour is.  Per spec §4.3
and the documented sample output (PROJECT_STATUS.md: SII/OIII 180s at 0.6x
from a 300s Ha base), the SII/OIII recommended exposure is 0.6 times the
H-alpha-baseline recommended exposure, independent of the filter the current
frame used. -/
def shoRecommendedExposure (currentFilter : String) (haBaseline : ℚ) : ℚ :=
  (6 / 10) * haBaseline

/-- JavaScript s.split(" ")[0]: the segment of s before the first space
(the whole of s when it has no space, and "" when s starts with a space or
is empty), that is, the longest space-free prefix of s. -/
def firstToken (s : String) : String :=
  String.mk (s.data.takeWhile (fun c => c ≠ ' '))

/-- Embedding of the rig derivation (dashboard.js line 487 in
createCompactRow, line 581 in createDetailedRow, line 730 in
updateRigSummary): const rig = fileInfo.rig ||
camera.split(" ")[0] + "/" + telescope.split(" ")[0], where camera and
telescope are the already-defaulted equipment strings. -/
def rigOf (rigField : Option String) (camera telescope : String) : String :=
  jsOrStr rigField (firstToken camera ++ "/" ++ firstToken telescope)

/-- One item of the pagination list built by updatePagination. -/
inductive PageItem where
  | previousItem (disabled : Bool)
  | pageNumber (n : Int) (active : Bool)
  | nextItem (disabled : Bool)
deriving DecidableEq

/-- The inclusive integer interval rendered by the for loop
`for (let i = startPage; i <= endPage; i++)`; empty when endPage < startPage. -/
def pageNumbersRange (a b : Int) : List Int :=
  (List.range (b + 1 - a).toNat).map (fun j : Nat => a + (j : Int))

/-- Embedding of updatePagination (part_000 lines 244-277, dashboard.js
lines 757-790): const totalPages = data.pages || 1; if (totalPages <= 1)
render nothing; otherwise render Previous (disabled iff currentPage === 1),
the page numbers from max(1, currentPage - 2) to min(totalPages,
currentPage + 2) (active iff equal to currentPage), and Next (disabled iff
currentPage === totalPages). -/
def updatePagination (pages : Option Int) (currentPage : Int) : List PageItem :=
  let totalPages := jsOrInt pages 1
  if totalPages ≤ 1 then []
  else
    let startPage := max 1 (currentPage - 2)
    let endPage := min totalPages (currentPage + 2)
    PageItem.previousItem (decide (currentPage = 1)) ::
      ((pageNumbersRange startPage endPage).map
        (fun i => PageItem.pageNumber i (decide (i = currentPage))) ++
       [PageItem.nextItem (decide (currentPage = totalPages))])

/-- The current filter selection of the dashboard (currentFilters object). -/
structure Filters where
  rig : String
  filterType : String
  status : String
deriving DecidableEq

/-- The rig value filterData extracts from an item (dashboard.js line 361):
const fileInfo = item.file_info || \x7b\x7d; const rig = fileInfo.rig || 'Unknown'. -/
def itemRig (item : Report) : String :=
  match item.file_info with
  | none => "Unknown"
  | some fi => jsOrStr fi.rig "Unknown"

/-- The filter-type value filterData extracts (dashboard.js line 362):
const filterType = fileInfo.filter || 'Unknown'. -/
def itemFilterType (item : Report) : String :=
  match item.file_info with
  | none => "Unknown"
  | some fi => jsOrStr fi.filter "Unknown"

/-- The severity filterData reads (dashboard.js lines 357-358):
const analysisData = item.analysis || \x7b\x7d;
const sat = analysisData.saturation_analysis || \x7b\x7d; then sat.severity. -/
def itemSeverity (item : Report) : Option String :=
  match item.analysis with
  | none => none
  | some ad =>
    match ad.saturation_analysis with
    | none => none
    | some sa => sa.severity

/-- The status filterData derives for an item (dashboard.js lines 363-370). -/
def itemStatus (item : Report) : String :=
  statusOfSeverity (itemSeverity item)

/-- The per-item predicate of filterData (dashboard.js lines 372-385): each
of the three active filters rejects a mismatching item, otherwise the item
is kept. -/
def keepItem (fs : Filters) (item : Report) : Bool :=
  if fs.rig ≠ "all" ∧ itemRig item ≠ fs.rig then false
  else if fs.filterType ≠ "all" ∧ itemFilterType item ≠ fs.filterType then false
  else if fs.status ≠ "all" ∧ itemStatus item ≠ fs.status then false
  else true

/-- Embedding of filterData (dashboard.js lines 352-387) on an array input
(the non-array guard at line 353 returns []). -/
def filterData (data : List Report) (fs : Filters) : List Report :=
  data.filter (keepItem fs)

/-- One record of the GET /api/recommendations payload read by
loadRecommendations (part_001 lines 129-177). -/
structure RecRecord where
  recommendation : String
  file : String
deriving DecidableEq

/-- One group built by loadRecommendations: the full recommendation string
of the first record of the group, an occurrence count and the files. -/
structure RecGroup where
  recommendation : String
  count : Nat
  files : List String
deriving DecidableEq

/-- JavaScript s.substring(0, n): the first n characters of s. -/
def substringTo (s : String) (n : Nat) : String :=
  String.mk (s.data.take n)

/-- The grouping key (part_001 line 144): rec.recommendation.substring(0, 50). -/
def recKey (r : RecRecord) : String :=
  substringTo r.recommendation 50

/-- The per-entry update of one forEach step when the key is already
present: grouped[key].count++ and grouped[key].files.push(rec.file). -/
def bumpGroup (r : RecRecord) (p : String × RecGroup) : String × RecGroup :=
  if p.1 = recKey r then
    (p.1, { recommendation := p.2.recommendation,
            count := p.2.count + 1,
            files := p.2.files ++ [r.file] })
  else p

/-- One forEach step of loadRecommendations (part_001 lines 143-154) on the
grouped map, modelled as an insertion-ordered association list (JS object
string keys enumerate in insertion order): a fresh key appends a group with
count 1, an existing key bumps its group. -/
def addRec (acc : List (String × RecGroup)) (r : RecRecord) : List (String × RecGroup) :=
  if acc.any (fun p => p.1 == recKey r) then acc.map (bumpGroup r)
  else acc ++ [(recKey r, { recommendation := r.recommendation, count := 1, files := [r.file] })]

/-- Object.values(grouped) after the forEach over all records. -/
def groupRecs (recs : List RecRecord) : List RecGroup :=
  (recs.foldl addRec []).map Prod.snd

/-- The sort relation of part_001 line 158, sort((a, b) => b.count - a.count):
non-increasing count. -/
def byCountDesc (a b : RecGroup) : Prop :=
  b.count ≤ a.count

instance : DecidableRel byCountDesc :=
  fun a b => Nat.decLe b.count a.count

instance : IsTotal RecGroup byCountDesc :=
  ⟨fun a b => Nat.le_total b.count a.count⟩

instance : IsTrans RecGroup byCountDesc :=
  ⟨fun _ _ _ h1 h2 => Nat.le_trans h2 h1⟩

/-- The stable descending-by-count sort of part_001 line 158 (Array sort is
stable per ES2019, and a stable sort is the insertion sort). -/
def sortGroupsDesc (l : List RecGroup) : List RecGroup :=
  List.insertionSort byCountDesc l

/-- The displayed top recommendations (part_001 lines 157-159):
Object.values(grouped).sort((a, b) => b.count - a.count).slice(0, 5). -/
def topRecommendations (recs : List RecRecord) : List RecGroup :=
  (sortGroupsDesc (groupRecs recs)).take 5

/-- The number of input records carrying a given grouping key. -/
def keyCount (recs : List RecRecord) (k : String) : Nat :=
  (recs.filter (fun r => recKey r == k)).length

/-- C1 counterexample: at a factor of exactly 1.5 the dashboard assigns the
good badge, not the high badge, so the claimed boundary-inclusive high band
(factor at least 1.5) does not match the code, which tests factor > 1.5. -/
theorem exposure_badge_boundary_counterexample :
    ((3 : ℚ)/2) ≥ 3/2 ∧
    exposureBadgeOf (some (3/2)) = ExposureBadge.good ∧
    ExposureBadge.good ≠ ExposureBadge.high := by
  refine ⟨le_refl _, ?_, by decide⟩
  norm_num [exposureBadgeOf, jsOrRat]

/-- C1 (amended): the exposure badge is a pure function of exposure_factor:
high exactly when the effective factor strictly exceeds 1.5, low exactly
when it is strictly below 0.67, good exactly when 0.67 <= factor <= 1.5
(both cutpoints land in the good band); an absent or zero exposure_factor
is treated as factor 1, hence good. -/
theorem exposure_badge_bands (factor : Option ℚ) :
    (exposureBadgeOf factor = ExposureBadge.high ↔ 3/2 < jsOrRat factor 1) ∧
    (exposureBadgeOf factor = ExposureBadge.low ↔ jsOrRat factor 1 < 67/100) ∧
    (exposureBadgeOf factor = ExposureBadge.good ↔
      (67/100 ≤ jsOrRat factor 1 ∧ jsOrRat factor 1 ≤ 3/2)) := by
  simp only [exposureBadgeOf]
  generalize jsOrRat factor 1 = f
  by_cases h1 : f < 67/100
  · rw [if_pos h1]
    exact ⟨iff_of_false (by decide) (by intro h2; linarith),
           iff_of_true rfl h1,
           iff_of_false (by decide) (fun hc => absurd hc.1 (not_le.mpr h1))⟩
  · by_cases h2 : 3/2 < f
    · rw [if_neg h1, if_pos h2]
      exact ⟨iff_of_true rfl h2,
             iff_of_false (by decide) h1,
             iff_of_false (by decide) (fun hc => absurd h2 (not_lt.mpr hc.2))⟩
    · rw [if_neg h1, if_neg h2]
      exact ⟨iff_of_false (by decide) h2,
             iff_of_false (by decide) h1,
             iff_of_true rfl ⟨not_lt.mp h1, not_lt.mp h2⟩⟩

/-- C2 counterexample: the current-exposure cell of the analyses table
renders an absent current_exposure as the number 0 (the "0s" cell), not as
N/A: zero is substituted for the missing value. -/
theorem current_exposure_zero_substitution :
    renderCurrentExposure none = RenderedNum.shown 0 ∧
    RenderedNum.shown 0 ≠ RenderedNum.absent :=
  ⟨rfl, by decide⟩

/-- C2 (amended): the truthiness-guarded float cells (mag_per_arcsec2, the
SNR metrics, recommended_exposure, and the detail view's exposure_factor)
render as N/A or are omitted exactly when the value is null/absent or zero
and never substitute zero; the current-exposure cell, however, renders an
absent or null current_exposure as the number 0. -/
theorem absent_float_fields_amended (v : Option ℚ) :
    (renderOptionalMetric v = RenderedNum.absent ↔ (v = none ∨ v = some 0)) ∧
    (∀ q : ℚ, renderOptionalMetric v = RenderedNum.shown q → v = some q) ∧
    renderCurrentExposure none = RenderedNum.shown 0 := by
  refine ⟨?_, ?_, rfl⟩
  · cases v with
    | none => simp [renderOptionalMetric, truthyRat]
    | some q =>
      by_cases h : q = 0 <;> simp [renderOptionalMetric, truthyRat, h]
  · intro q hq
    cases v with
    | none => simp [renderOptionalMetric, truthyRat] at hq
    | some x =>
      by_cases h : x = 0
      · simp [renderOptionalMetric, truthyRat, h] at hq
      · simp [renderOptionalMetric, truthyRat, h] at hq
        simp [hq]

/-- C2 witness: a present non-zero value is shown as itself by the
truthiness-guarded cells. -/
theorem absent_float_fields_amended_witness :
    (some (5 : ℚ)) = some (5 : ℚ) :=
  (absent_float_fields_amended (some 5)).2.1 5 (by decide)

/-- C3: the dashboard status is Critical for severity CRITICAL, Moderate for
MODERATE, and Good for every other severity value, in particular HIGH and
MINOR. -/
theorem status_severity_map :
    statusOfSeverity (some "CRITICAL") = "Critical" ∧
    statusOfSeverity (some "MODERATE") = "Moderate" ∧
    statusOfSeverity (some "HIGH") = "Good" ∧
    statusOfSeverity (some "MINOR") = "Good" ∧
    ∀ sev : Option String, sev ≠ some "CRITICAL" → sev ≠ some "MODERATE" →
      statusOfSeverity sev = "Good" := by
  refine ⟨by decide, by decide, by decide, by decide, ?_⟩
  intro sev h1 h2
  unfold statusOfSeverity
  rw [if_neg h1, if_neg h2]

/-- C3 witness: a record with severity NONE is displayed and filtered as
Good. -/
theorem status_severity_map_witness :
    statusOfSeverity (some "NONE") = "Good" :=
  status_severity_map.2.2.2.2 (some "NONE") (by decide) (by decide)

/-- C4 counterexample: a present but empty rig field is not used unchanged:
JavaScript || treats the empty string as falsy, so the rig is re-derived
from camera and telescope. -/
theorem rig_empty_string_counterexample :
    rigOf (some "") "CamA X" "TelB Y" = "CamA/TelB" ∧
    ("CamA/TelB" : String) ≠ "" := by
  refine ⟨?_, by decide⟩
  decide

/-- C4 (amended): when the rig field is absent, or present but empty (JS
falsy), the rig is derived as the first space-separated token of the camera
name, a slash, and the first space-separated token of the telescope name;
a present non-empty rig field is used unchanged. -/
theorem rig_derivation_amended (s c t : String) :
    (s ≠ "" → rigOf (some s) c t = s) ∧
    rigOf none c t = firstToken c ++ "/" ++ firstToken t ∧
    rigOf (some "") c t = firstToken c ++ "/" ++ firstToken t := by
  refine ⟨?_, rfl, ?_⟩
  · intro h
    simp [rigOf, jsOrStr, h]
  · simp [rigOf, jsOrStr]

/-- C4 witness: a present non-empty rig field is used unchanged. -/
theorem rig_derivation_amended_witness :
    rigOf (some "Rig24") "ASI2600MM Pro" "AskarV-80 APO" = "Rig24" :=
  (rig_derivation_amended "Rig24" "ASI2600MM Pro" "AskarV-80 APO").1 (by decide)

/-- C5: the SHO recommended exposure is exactly 0.6 times the Ha-baseline
recommended exposure, independent of the current frame's filter, and the
documented sample (300s Ha base) yields the documented 180s. -/
theorem sho_fixed_ratio (fa fb : String) (base : ℚ) :
    shoRecommendedExposure fa base = (6/10) * base ∧
    shoRecommendedExposure fa base = shoRecommendedExposure fb base ∧
    shoRecommendedExposure fa 300 = 180 := by
  refine ⟨rfl, rfl, ?_⟩
  norm_num [shoRecommendedExposure]

/-- C7: after updateWatcherControls, the start button is disabled exactly
when watcher_running is true, the stop button is disabled exactly when
watcher_running is false or absent, and the two disabled flags always
differ, so exactly one of the two buttons is enabled. -/
theorem watcher_controls_exclusive (data : WatcherStatus) :
    ((updateWatcherControls data).startDisabled = true ↔
      data.watcher_running = some true) ∧
    ((updateWatcherControls data).stopDisabled = true ↔
      data.watcher_running ≠ some true) ∧
    (updateWatcherControls data).startDisabled ≠
      (updateWatcherControls data).stopDisabled := by
  obtain ⟨wr⟩ := data
  cases wr with
  | none => simp [updateWatcherControls, jsOrBool]
  | some b => cases b <;> simp [updateWatcherControls, jsOrBool]

/-- C9: the sky-brightness cell renders N/A exactly when mag_per_arcsec2 is
null, absent, or exactly zero, and the bright sky badge is applied exactly
when the magnitude is truthy and strictly below 19. -/
theorem sky_cell_and_badge (mag : Option ℚ) :
    (renderOptionalMetric mag = RenderedNum.absent ↔ (mag = none ∨ mag = some 0)) ∧
    (skyBadgeOf mag = SkyBadge.bright ↔ ∃ q, mag = some q ∧ q ≠ 0 ∧ q < 19) := by
  constructor
  · cases mag with
    | none => simp [renderOptionalMetric, truthyRat]
    | some q =>
      by_cases h : q = 0 <;> simp [renderOptionalMetric, truthyRat, h]
  · cases mag with
    | none => simp [skyBadgeOf]
    | some q =>
      by_cases h : q ≠ 0 ∧ q < 19
      · simp only [skyBadgeOf, if_pos h]
        simp [h.1, h.2]
      · simp only [skyBadgeOf, if_neg h]
        constructor
        · intro hc
          exact absurd hc (by decide)
        · rintro ⟨q', hq', h1, h2⟩
          rw [Option.some.injEq] at hq'
          subst hq'
          exact absurd ⟨h1, h2⟩ h

/-- Membership in the rendered page-number interval is exactly the
inclusive bounds of the for loop. -/
lemma mem_pageNumbersRange (a b i : Int) :
    i ∈ pageNumbersRange a b ↔ a ≤ i ∧ i ≤ b := by
  simp only [pageNumbersRange, List.mem_map, List.mem_range]
  constructor
  · rintro ⟨j, hj, rfl⟩
    omega
  · rintro ⟨h1, h2⟩
    exact ⟨(i - a).toNat, by omega, by omega⟩

/-- C8: updatePagination renders nothing exactly when the (defaulted) pages
value is at most 1; otherwise it renders a Previous link disabled exactly
when the current page is 1, a Next link disabled exactly when the current
page equals pages, and numbered links exactly for the pages from
max(1, currentPage - 2) through min(pages, currentPage + 2). -/
theorem updatePagination_spec (pages : Option Int) (cp : Int) :
    (updatePagination pages cp = [] ↔ jsOrInt pages 1 ≤ 1) ∧
    (1 < jsOrInt pages 1 →
      (∀ b, PageItem.previousItem b ∈ updatePagination pages cp ↔
        b = decide (cp = 1)) ∧
      (∀ b, PageItem.nextItem b ∈ updatePagination pages cp ↔
        b = decide (cp = jsOrInt pages 1)) ∧
      (∀ i : Int, (∃ a, PageItem.pageNumber i a ∈ updatePagination pages cp) ↔
        (max 1 (cp - 2) ≤ i ∧ i ≤ min (jsOrInt pages 1) (cp + 2)))) := by
  simp only [updatePagination]
  generalize jsOrInt pages 1 = T
  by_cases hT : T ≤ 1
  · rw [if_pos hT]
    exact ⟨iff_of_true rfl hT, fun h => absurd hT (not_le.mpr h)⟩
  · rw [if_neg hT]
    refine ⟨iff_of_false (by simp) hT, fun _ => ⟨?_, ?_, ?_⟩⟩
    · intro b
      simp [mem_pageNumbersRange]
    · intro b
      simp [mem_pageNumbersRange, eq_comm]
    · intro i
      constructor
      · rintro ⟨a, ha⟩
        rcases List.mem_cons.mp ha with h | h
        · simp at h
        rcases List.mem_append.mp h with h2 | h2
        · rw [List.mem_map] at h2
          obtain ⟨j, hj, hje⟩ := h2
          injection hje with hji _
          subst hji
          exact (mem_pageNumbersRange _ _ _).mp hj
        · rw [List.mem_singleton] at h2
          simp at h2
      · intro hb
        refine ⟨decide (i = cp), List.mem_cons_of_mem _ (List.mem_append_left _ ?_)⟩
        rw [List.mem_map]
        exact ⟨i, (mem_pageNumbersRange _ _ _).mpr hb, rfl⟩

/-- C8 witness: with 3 pages and current page 2, an enabled Previous link is
rendered. -/
theorem updatePagination_spec_witness :
    PageItem.previousItem false ∈ updatePagination (some 3) 2 :=
  (((updatePagination_spec (some 3) 2).2 (by decide)).1 false).mpr (by decide)

/-- The per-item predicate of filterData holds exactly when each of the
three coordinates is unfiltered or matches. -/
lemma keepItem_iff (fs : Filters) (item : Report) :
    keepItem fs item = true ↔
      (fs.rig = "all" ∨ itemRig item = fs.rig) ∧
      (fs.filterType = "all" ∨ itemFilterType item = fs.filterType) ∧
      (fs.status = "all" ∨ itemStatus item = fs.status) := by
  unfold keepItem
  split_ifs with h1 h2 h3
  · exact iff_of_false (by simp) (fun hc => hc.1.elim h1.1 h1.2)
  · exact iff_of_false (by simp) (fun hc => hc.2.1.elim h2.1 h2.2)
  · exact iff_of_false (by simp) (fun hc => hc.2.2.elim h3.1 h3.2)
  · rw [not_and_or, not_not, not_not] at h1 h2 h3
    exact iff_of_true rfl ⟨h1, h2, h3⟩

/-- C10: filterData keeps exactly the items whose derived rig, filter type
and status match the respective filter or whose filter is "all"; with all
three filters set to "all" it returns its input unchanged, and it is
idempotent. -/
theorem filterData_spec (data : List Report) (fs : Filters) :
    (∀ item, item ∈ filterData data fs ↔ item ∈ data ∧
      (fs.rig = "all" ∨ itemRig item = fs.rig) ∧
      (fs.filterType = "all" ∨ itemFilterType item = fs.filterType) ∧
      (fs.status = "all" ∨ itemStatus item = fs.status)) ∧
    (fs.rig = "all" → fs.filterType = "all" → fs.status = "all" →
      filterData data fs = data) ∧
    filterData (filterData data fs) fs = filterData data fs := by
  refine ⟨?_, ?_, ?_⟩
  · intro item
    rw [filterData, List.mem_filter, keepItem_iff]
  · intro h1 h2 h3
    rw [filterData, List.filter_eq_self]
    intro item _
    exact (keepItem_iff fs item).mpr ⟨Or.inl h1, Or.inl h2, Or.inl h3⟩
  · simp only [filterData]
    rw [List.filter_filter]
    simp only [Bool.and_self]

/-- A sample report with no file_info and no analysis, as the dashboard
tolerates. -/
def demoReport : Report :=
  { file_info := none, analysis := none }

/-- C10 witness: with all three filters set to "all", filterData returns its
input list unchanged. -/
theorem filterData_spec_witness :
    filterData [demoReport] (Filters.mk "all" "all" "all") = [demoReport] :=
  (filterData_spec [demoReport] (Filters.mk "all" "all" "all")).2.1 rfl rfl rfl

/-- Adding one record to the key list changes the count of its key by one
and of every other key by nothing. -/
lemma keyCount_append_single (l : List RecRecord) (r : RecRecord) (k : String) :
    keyCount (l ++ [r]) k = keyCount l k + (if recKey r = k then 1 else 0) := by
  by_cases h : recKey r = k <;>
    simp [keyCount, List.filter_append, h]

/-- bumpGroup never changes the key of an entry. -/
lemma bumpGroup_fst (r : RecRecord) (p : String × RecGroup) :
    (bumpGroup r p).1 = p.1 := by
  unfold bumpGroup
  split_ifs <;> rfl

/-- Invariant of the grouped association list after the forEach has
processed a list of records: the keys are distinct, each entry's key is the
first 50 characters of its group's recommendation and its count is the
number of processed records with that key, and every key without an entry
has processed-count 0. -/
def GoodEntries (processed : List RecRecord) (acc : List (String × RecGroup)) : Prop :=
  (acc.map Prod.fst).Nodup ∧
  (∀ p ∈ acc, p.1 = substringTo p.2.recommendation 50 ∧ p.2.count = keyCount processed p.1) ∧
  ∀ k : String, (∀ p ∈ acc, p.1 ≠ k) → keyCount processed k = 0

/-- One forEach step preserves the grouping invariant. -/
lemma addRec_inv {processed : List RecRecord} {acc : List (String × RecGroup)}
    (h : GoodEntries processed acc) (r : RecRecord) :
    GoodEntries (processed ++ [r]) (addRec acc r) := by
  obtain ⟨hnd, hent, hcov⟩ := h
  unfold addRec
  by_cases hmem : acc.any (fun p => p.1 == recKey r)
  · rw [if_pos hmem]
    refine ⟨?_, ?_, ?_⟩
    · have he : (acc.map (bumpGroup r)).map Prod.fst = acc.map Prod.fst := by
        rw [List.map_map]
        exact List.map_congr_left (fun p _ => bumpGroup_fst r p)
      rw [he]
      exact hnd
    · intro p hp
      rw [List.mem_map] at hp
      obtain ⟨q, hq, rfl⟩ := hp
      obtain ⟨hq1, hq2⟩ := hent q hq
      unfold bumpGroup
      by_cases hk : q.1 = recKey r
      · rw [if_pos hk]
        dsimp only
        refine ⟨hq1, ?_⟩
        rw [keyCount_append_single, if_pos hk.symm]
        omega
      · rw [if_neg hk]
        refine ⟨hq1, ?_⟩
        rw [keyCount_append_single, if_neg (fun he => hk he.symm)]
        simpa using hq2
    · intro k hk
      have hk' : ∀ p ∈ acc, p.1 ≠ k := by
        intro p hp
        have hb := hk (bumpGroup r p) (List.mem_map_of_mem _ hp)
        rwa [bumpGroup_fst] at hb
      rw [List.any_eq_true] at hmem
      obtain ⟨p0, hp0, hp0k⟩ := hmem
      rw [beq_iff_eq] at hp0k
      have hkr : recKey r ≠ k := fun he => (hk' p0 hp0) (hp0k.trans he)
      rw [keyCount_append_single, if_neg hkr, hcov k hk']
  · rw [if_neg hmem]
    have hno : ∀ p ∈ acc, p.1 ≠ recKey r := by
      intro p hp he
      exact hmem (List.any_eq_true.mpr ⟨p, hp, beq_iff_eq.mpr he⟩)
    refine ⟨?_, ?_, ?_⟩
    · rw [List.map_append]
      refine List.Nodup.append hnd (List.nodup_singleton _) ?_
      intro x hx hy
      simp only [List.map_cons, List.map_nil, List.mem_singleton] at hy
      subst hy
      rw [List.mem_map] at hx
      obtain ⟨p, hp, hpe⟩ := hx
      exact hno p hp hpe
    · intro p hp
      rcases List.mem_append.mp hp with hp | hp
      · obtain ⟨hq1, hq2⟩ := hent p hp
        refine ⟨hq1, ?_⟩
        rw [keyCount_append_single, if_neg (fun he => hno p hp he.symm)]
        simpa using hq2
      · rw [List.mem_singleton] at hp
        subst hp
        refine ⟨rfl, ?_⟩
        rw [keyCount_append_single, if_pos rfl, hcov _ hno]
    · intro k hk
      have hk' : ∀ p ∈ acc, p.1 ≠ k :=
        fun p hp => hk p (List.mem_append_left _ hp)
      have hkr : recKey r ≠ k :=
        hk _ (List.mem_append_right _ (List.mem_singleton_self _))
      rw [keyCount_append_single, if_neg hkr, hcov k hk']

/-- The whole forEach preserves the grouping invariant. -/
lemma foldl_addRec_inv :
    ∀ (recs : List RecRecord) (processed : List RecRecord)
      (acc : List (String × RecGroup)),
      GoodEntries processed acc →
      GoodEntries (processed ++ recs) (recs.foldl addRec acc)
  | [], processed, acc, h => by simpa using h
  | r :: rest, processed, acc, h => by
    have h2 := foldl_addRec_inv rest (processed ++ [r]) (addRec acc r) (addRec_inv h r)
    simpa [List.append_assoc] using h2

/-- The grouped map built from the full record list satisfies the
invariant. -/
lemma groupRecs_inv (recs : List RecRecord) :
    GoodEntries recs (recs.foldl addRec []) := by
  have h0 : GoodEntries [] ([] : List (String × RecGroup)) :=
    ⟨List.nodup_nil, by simp, fun k _ => rfl⟩
  simpa using foldl_addRec_inv recs [] [] h0

/-- Every displayed group's count is the number of input records whose
first-50-character key matches the group's. -/
lemma groupRecs_count (recs : List RecRecord) :
    ∀ g ∈ groupRecs recs, g.count = keyCount recs (substringTo g.recommendation 50) := by
  intro g hg
  rw [groupRecs, List.mem_map] at hg
  obtain ⟨p, hp, rfl⟩ := hg
  obtain ⟨_, hent, _⟩ := groupRecs_inv recs
  obtain ⟨h1, h2⟩ := hent p hp
  rw [← h1]
  exact h2

/-- Distinct groups carry distinct first-50-character keys. -/
lemma groupRecs_keys_nodup (recs : List RecRecord) :
    ((groupRecs recs).map (fun g => substringTo g.recommendation 50)).Nodup := by
  obtain ⟨hnd, hent, _⟩ := groupRecs_inv recs
  rw [groupRecs, List.map_map]
  have he : ((recs.foldl addRec []).map
      ((fun g : RecGroup => substringTo g.recommendation 50) ∘ Prod.snd)) =
      (recs.foldl addRec []).map Prod.fst :=
    List.map_congr_left (fun p hp => ((hent p hp).1).symm)
  rw [he]
  exact hnd

/-- Membership in the top-5 list implies membership in the grouped list. -/
lemma mem_topRecommendations {recs : List RecRecord} {g : RecGroup}
    (h : g ∈ topRecommendations recs) : g ∈ groupRecs recs := by
  have h1 : g ∈ sortGroupsDesc (groupRecs recs) :=
    (List.take_sublist 5 _).subset h
  rw [sortGroupsDesc, List.mem_insertionSort] at h1
  exact h1

/-- C6: the top-recommendation view shows at most 5 groups, in
non-increasing occurrence-count order; the groups partition the input by the
first 50 characters of the recommendation string (distinct keys, and each
group counts exactly the records carrying its key); being a pure function of
the input list, the selection is deterministic. -/
theorem topRecommendations_spec (recs : List RecRecord) :
    (topRecommendations recs).length ≤ 5 ∧
    List.Sorted byCountDesc (topRecommendations recs) ∧
    ((groupRecs recs).map (fun g => substringTo g.recommendation 50)).Nodup ∧
    ∀ g ∈ topRecommendations recs, g.count = keyCount recs (substringTo g.recommendation 50) := by
  refine ⟨List.length_take_le 5 _, ?_, groupRecs_keys_nodup recs, ?_⟩
  · exact List.Pairwise.sublist (List.take_sublist 5 _)
      (List.sorted_insertionSort byCountDesc (groupRecs recs))
  · intro g hg
    exact groupRecs_count recs g (mem_topRecommendations hg)

/-- Sample recommendation records for the C6 witness. -/
def demoRecs : List RecRecord :=
  [{ recommendation := "Increase exposure", file := "a.fits" },
   { recommendation := "Increase exposure", file := "b.fits" },
   { recommendation := "Decrease exposure", file := "c.fits" }]

/-- C6 witness: on the sample records, the group of the twice-occurring
recommendation is displayed with count 2, the number of records carrying its
key. -/
theorem topRecommendations_spec_witness :
    (RecGroup.mk "Increase exposure" 2 ["a.fits", "b.fits"]).count =
      keyCount demoRecs (substringTo "Increase exposure" 50) :=
  (topRecommendations_spec demoRecs).2.2.2
    (RecGroup.mk "Increase exposure" 2 ["a.fits", "b.fits"]) (by decide)

end CentaurParting
